import Mathlib

/-!
Shallow embedding of the timelapse-dashboard supervision core
(src/timelapse.py, with the minimal variant src/app.py where cited).

The Python module keeps its state in module-level globals:
`process` (the subprocess handle), `recent_logs` (in-memory log tail),
the status JSON file, and two lists of SSE client queues.  We model
that state as an explicit `ServerState` record and each operation of
the source as a pure state-passing function.  Python `Queue` objects
are modelled by `Chan`: an item list plus a `failing` flag standing
for a queue whose `put_nowait` raises (the source wraps every put in
`try/except` and ignores the failure).  Python integers are `Int`,
Python strings are `String` (parsing works on `List Char`).
-/

/-- A subscriber queue: `items` is the queue contents, `failing` models a
queue whose `put_nowait` raises (the source swallows that exception). -/
structure Chan (α : Type) where
  items : List α
  failing : Bool

deriving instance DecidableEq for Chan

/-- OS handle to the supervised subprocess.  `exitCode = none` models
`process.poll() is None` (still running); `some n` a finished process. -/
structure Proc where
  exitCode : Option Int

deriving instance DecidableEq for Proc

/-- The persisted status record (the JSON dict written to
`timelapse_status.json`).  Every record the program reads or writes
carries all of these keys: `read_status`'s default supplies them and
`write_status`/`append_log` always keep `recent_logs` present, so the
dict is modelled with a fixed schema.  `start_time = none` models an
absent `start_time` key. -/
structure StatusRec where
  status : String
  captured : Int
  total : Int
  error : Option String
  start_time : Option String
  recent_logs : List String

deriving instance DecidableEq for StatusRec

/-- The module-level mutable state of src/timelapse.py: the `process`
global, `recent_logs`, the status file contents (`none` = file absent),
the two SSE client lists, whether the timelapse script exists and is
executable, and the runner threads that have been spawned by `start`
but have not yet executed their body (each carries its
`(interval, frames)` arguments). -/
structure ServerState where
  process : Option Proc
  recentLogs : List String
  statusFile : Option StatusRec
  logClients : List (Chan String)
  statusClients : List (Chan StatusRec)
  scriptOk : Bool
  pendingRuns : List (Int × Int)

deriving instance DecidableEq for ServerState

/-- Result of a Flask endpoint: the JSON `success`/`message` payload and
the HTTP status code. -/
structure HttpResp where
  success : Bool
  message : String
  code : Nat

deriving instance DecidableEq for HttpResp

/-- Default status returned by `read_status` when the file is absent or
unreadable (src/timelapse.py line 52). -/
def defaultStatus : StatusRec :=
  { status := "idle", captured := 0, total := 0, error := none,
    start_time := none, recent_logs := [] }

/-- Queue.put_nowait wrapped in the source's try/except: a failing queue
drops the item silently, any other queue appends it. -/
def putNowait {α : Type} (q : Chan α) (x : α) : Chan α :=
  if q.failing then q else { q with items := q.items ++ [x] }

/-- The `for q in list(clients): try: q.put_nowait(payload) except: pass`
loop shared by `broadcast_log` and `broadcast_status`
(src/timelapse.py lines 62-78). -/
def broadcastAll {α : Type} (qs : List (Chan α)) (x : α) : List (Chan α) :=
  qs.map (fun q => putNowait q x)

/-- read_status (src/timelapse.py lines 44-52): the file contents if
present, else the default idle record. -/
def read_status (σ : ServerState) : StatusRec :=
  σ.statusFile.getD defaultStatus

/-- broadcast_log (src/timelapse.py lines 62-70). -/
def broadcast_log (σ : ServerState) (line : String) : ServerState :=
  { σ with logClients := broadcastAll σ.logClients line }

/-- broadcast_status (src/timelapse.py lines 72-78). -/
def broadcast_status (σ : ServerState) (rec : StatusRec) : ServerState :=
  { σ with statusClients := broadcastAll σ.statusClients rec }

/-- write_status (src/timelapse.py lines 54-60): persist the record via
`safe_write_json`, then broadcast it to the status clients.  The
source's `data.setdefault("recent_logs", ...)` only fills the key when
it is absent; in the fixed schema every record already carries it, so
the record is persisted unchanged. -/
def write_status (σ : ServerState) (rec : StatusRec) : ServerState :=
  broadcast_status { σ with statusFile := some rec } rec

/-- MAX_RECENT_LOGS (src/timelapse.py line 30). -/
def MAX_RECENT_LOGS : Nat := 200

/-- The ring-buffer step of append_log (src/timelapse.py lines 81-83):
`recent_logs.append(line)` followed by
`if len(recent_logs) > MAX_RECENT_LOGS: del recent_logs[:-MAX_RECENT_LOGS]`,
which keeps exactly the last MAX_RECENT_LOGS entries. -/
def appendRecent (logs : List String) (line : String) : List String :=
  let l := logs ++ [line]
  if MAX_RECENT_LOGS < l.length then l.drop (l.length - MAX_RECENT_LOGS) else l

/-- Python slice `l[-n:]`: the last `min n (length l)` elements. -/
def lastN {α : Type} (n : Nat) (l : List α) : List α :=
  l.drop (l.length - n)

/-- append_log (src/timelapse.py lines 80-87): push the line through the
ring buffer, then re-write the status file with the updated
`recent_logs` tail via `safe_write_json` (a direct file write, no
status broadcast). -/
def append_log (σ : ServerState) (line : String) : ServerState :=
  let rl := appendRecent σ.recentLogs line
  let curr := read_status σ
  { σ with
    recentLogs := rl,
    statusFile := some { curr with recent_logs := lastN MAX_RECENT_LOGS rl } }

/-- Python `str.rstrip("\n")` on the character list: drop trailing
newlines. -/
def rstripNl (l : List Char) : List Char :=
  (l.reverse.dropWhile (fun c => c == '\n')).reverse

/-- Python whitespace test used by `str.strip()`. -/
def isPySpace (c : Char) : Bool := c.isWhitespace

/-- Python `str.strip()`: drop leading and trailing whitespace. -/
def stripL (l : List Char) : List Char :=
  ((l.dropWhile isPySpace).reverse.dropWhile isPySpace).reverse

/-- Python `str.lower()` (ASCII letters suffice here). -/
def toLowerL (l : List Char) : List Char := l.map Char.toLower

/-- Does `cs` start with `p`?  (Helper for the Python `in` operator.) -/
def startsWithL : List Char → List Char → Bool
  | [], _ => true
  | _ :: _, [] => false
  | p :: ps, c :: cs => (p == c) && startsWithL ps cs

/-- Python substring test `p in cs` (case-sensitive). -/
def containsSeq (p : List Char) : List Char → Bool
  | [] => p.isEmpty
  | c :: cs => startsWithL p (c :: cs) || containsSeq p cs

/-- Python `str.split(":")`. -/
def splitC : List Char → List (List Char)
  | [] => [[]]
  | c :: rest =>
    if c = ':' then [] :: splitC rest
    else
      match splitC rest with
      | h :: t => (c :: h) :: t
      | [] => [[c]]

/-- Tail of Python `int()` digit scanning: digits, with single
underscores allowed between digits, accumulating the value. -/
def pyIntTail (acc : Nat) : List Char → Option Nat
  | [] => some acc
  | c :: rest =>
    if c = '_' then
      match rest with
      | [] => none
      | d :: rest2 =>
        if d.isDigit then pyIntTail (10 * acc + (d.toNat - 48)) rest2 else none
    else if c.isDigit then pyIntTail (10 * acc + (c.toNat - 48)) rest else none

/-- Python `int()` on an unsigned digit string (after stripping and sign
handling): nonempty, starts with a digit, underscores only between
digits. -/
def pyIntCore : List Char → Option Nat
  | [] => none
  | c :: rest => if c.isDigit then pyIntTail (c.toNat - 48) rest else none

/-- Python `int(s)` on a character list: strip whitespace, optional
sign, digits.  `none` models the ValueError raised on anything else. -/
def pyIntL (cs : List Char) : Option Int :=
  match stripL cs with
  | [] => none
  | c :: rest =>
    if c = '+' then (pyIntCore rest).map (fun n => (n : Int))
    else if c = '-' then (pyIntCore rest).map (fun n => -(n : Int))
    else (pyIntCore (c :: rest)).map (fun n => (n : Int))

/-- Python `int(s)` on a string. -/
def pyInt (s : String) : Option Int := pyIntL s.toList

/-- Value of a plain digit string (what `int` returns on it). -/
def digitsVal (ds : List Char) : Nat :=
  ds.foldl (fun a c => 10 * a + (c.toNat - 48)) 0

/-- The literal key the reader loop compares against. -/
def capturedKey : List Char := ['c', 'a', 'p', 't', 'u', 'r', 'e', 'd']

/-- The progress-parsing step of the reader loop
(src/timelapse.py lines 126-137): guarded by the case-sensitive
substring tests `"captured" in line and ":" in line`, then
`parts = line.split(":")`, `key = parts[0].strip().lower()`,
`val = int(parts[1].strip())`, update only if `key == "captured"`.
`none` covers both a failed guard and the swallowed exception paths
(missing parts, unparsable integer). -/
def parseProgressL (cs : List Char) : Option Int :=
  if containsSeq capturedKey cs && containsSeq [':'] cs then
    match splitC cs with
    | p0 :: p1 :: _ =>
      let key := toLowerL (stripL p0)
      match pyIntL (stripL p1) with
      | some v => if key = capturedKey then some v else none
      | none => none
    | _ => none
  else none

/-- One iteration of the reader loop for one raw output line
(src/timelapse.py lines 117-137): rstrip the newline; skip empty
lines; timestamp, append to the ring buffer (which re-writes the
status file), broadcast the log line; then, if the line parses as a
progress marker, read-modify-write the status record to
`status="running", captured=val, total=frames, error=None` (which also
broadcasts the status).  `now` is the `datetime.utcnow().isoformat()`
timestamp. -/
def run_timelapse_handle_line (now : String) (frames : Int)
    (σ : ServerState) (rawLine : String) : ServerState :=
  let cs := rstripNl rawLine.toList
  if cs = [] then σ
  else
    let timestamped := now ++ " - " ++ String.mk cs
    let σ1 := broadcast_log (append_log σ timestamped) timestamped
    match parseProgressL cs with
    | some v =>
      write_status σ1
        { read_status σ1 with
          status := "running", captured := v, total := frames, error := none }
    | none => σ1

/-- The initial record written by the runner thread
(src/timelapse.py lines 93-100). -/
def runInitialRecord (startTs : String) (frames : Int) (σ : ServerState) : StatusRec :=
  { status := "running", captured := 0, total := frames, error := none,
    start_time := some startTs, recent_logs := lastN MAX_RECENT_LOGS σ.recentLogs }

/-- First step of the runner thread body (src/timelapse.py line 101):
persist and broadcast the initial running record. -/
def run_timelapse_begin (startTs : String) (frames : Int)
    (σ : ServerState) : ServerState :=
  write_status σ (runInitialRecord startTs frames σ)

/-- Second step of the runner thread body (src/timelapse.py
lines 104-113): under the run-lock, launch the subprocess and store its
handle in the `process` global.  Note this happens only after `start`
has already returned. -/
def run_timelapse_register (σ : ServerState) : ServerState :=
  { σ with process := some { exitCode := none },
           pendingRuns := σ.pendingRuns.drop 1 }

/-- Finalization after end-of-stream (src/timelapse.py lines 139-148 and
the `finally` block at lines 156-158): map exit code 0 to "done" and
nonzero to "error" with message
`"timelapse script exited with code <ret>"`, keep `captured`
(`curr.get("captured", frames)` with the key always present), set
`total`, persist+broadcast, then clear the `process` global under the
run-lock. -/
def run_timelapse_finalize (frames : Int) (ret : Int)
    (σ : ServerState) : ServerState :=
  let curr := read_status σ
  let curr2 :=
    { curr with
      status := if ret = 0 then "done" else "error",
      total := frames,
      error :=
        if ret = 0 then curr.error
        else some ("timelapse script exited with code " ++ toString ret) }
  let σ2 := write_status σ curr2
  { σ2 with process := none }

/-- The success tail of `start_timelapse` (src/timelapse.py
lines 187-193): under the run-lock, clear `recent_logs` and spawn the
runner thread (recorded in `pendingRuns`; the thread itself registers
the process later via `run_timelapse_register`), then return success. -/
def start_go (i f : Int) (σ : ServerState) : HttpResp × ServerState :=
  ({ success := true, message := "Timelapse started", code := 200 },
   { σ with recentLogs := [], pendingRuns := σ.pendingRuns ++ [(i, f)] })

/-- The `/start` endpoint (src/timelapse.py lines 165-193): parse the
two arguments with `int` (ValueError gives 400 "Invalid numeric
values"), reject values below 1 with 400, reject a missing or
non-executable script with 500, then under the run-lock reject an
active process with 400 "Timelapse already running", otherwise clear
the log buffer and spawn the runner thread. -/
def start_timelapse (σ : ServerState) (interval frames : String) :
    HttpResp × ServerState :=
  match pyInt interval, pyInt frames with
  | some i, some f =>
    if i < 1 ∨ f < 1 then
      ({ success := false, message := "Interval and frames must be >= 1",
         code := 400 }, σ)
    else if σ.scriptOk = false then
      ({ success := false,
         message := "Timelapse script not found or not executable: /usr/local/bin/timelapse.sh",
         code := 500 }, σ)
    else
      match σ.process with
      | some p =>
        if p.exitCode = none then
          ({ success := false, message := "Timelapse already running",
             code := 400 }, σ)
        else start_go i f σ
      | none => start_go i f σ
  | _, _ =>
    ({ success := false, message := "Invalid numeric values", code := 400 }, σ)

/-- The `/stop` endpoint (src/timelapse.py lines 195-209): with no
process, or a process that has already exited, return 400
"No timelapse running" and touch nothing; otherwise send SIGINT,
optimistically read-modify-write the status record with
`status = "idle"` (persist + broadcast), and return success.
The `send_signal` call is modelled as succeeding; its `except` branch
(500) is outside every claim. -/
def stop_timelapse (σ : ServerState) : HttpResp × ServerState :=
  match σ.process with
  | none => ({ success := false, message := "No timelapse running", code := 400 }, σ)
  | some p =>
    match p.exitCode with
    | some _ =>
      ({ success := false, message := "No timelapse running", code := 400 }, σ)
    | none =>
      let curr := read_status σ
      ({ success := true, message := "Stop signal sent", code := 200 },
       write_status σ { curr with status := "idle" })

/-- Observable contents of the target file during a plain
`open(path, "w"); json.dump(...)`: the file is truncated to empty and
then filled left to right, so every prefix of the new contents is
observable, the last state being the complete record. -/
def directWriteStates (new : List Char) : List (List Char) :=
  (List.range (new.length + 1)).map (fun n => new.take n)

/-- Observable contents of the status file over a `safe_write_json` call
(src/timelapse.py lines 33-42), starting from contents `old` and
writing serialized record `new`.  On the normal path the temp file is
written aside and `os.replace` swaps it in atomically, so only the old
and the new contents are ever observable.  If writing the temp file
raises, the except branch re-writes the target file directly
(truncate-then-write), exposing every partial prefix. -/
def safe_write_states (old new : List Char) (tmpWriteFails : Bool) :
    List (List Char) :=
  if tmpWriteFails then old :: directWriteStates new
  else [old, new]

/-- Module-level state of the minimal variant src/app.py: just the
`process` global, plus a record of the `subprocess.Popen` calls made
(with their raw string arguments). -/
structure AppState where
  process : Option Proc
  spawned : List (String × String)

deriving instance DecidableEq for AppState

/-- The `/start` endpoint of src/app.py (lines 27-36): no validation at
all — if no live process, `subprocess.Popen([script, interval, frames])`
is called directly with the raw strings and the call succeeds. -/
def app_start_timelapse (σ : AppState) (interval frames : String) :
    HttpResp × AppState :=
  match σ.process with
  | some p =>
    if p.exitCode = none then
      ({ success := false, message := "Timelapse already running", code := 400 }, σ)
    else
      ({ success := true, message := "Timelapse started", code := 200 },
       { process := some { exitCode := none },
         spawned := σ.spawned ++ [(interval, frames)] })
  | none =>
    ({ success := true, message := "Timelapse started", code := 200 },
     { process := some { exitCode := none },
       spawned := σ.spawned ++ [(interval, frames)] })

/-- The `/stop` endpoint of src/app.py (lines 38-44): SIGINT the live
process, else 400; never touches the status file. -/
def app_stop_timelapse (σ : AppState) : HttpResp × AppState :=
  match σ.process with
  | some p =>
    if p.exitCode = none then
      ({ success := true, message := "Timelapse stopped", code := 200 }, σ)
    else
      ({ success := false, message := "No timelapse running", code := 400 }, σ)
  | none => ({ success := false, message := "No timelapse running", code := 400 }, σ)

/-- A concrete idle state used by witnesses and counterexamples. -/
def sampleIdle : ServerState :=
  { process := none, recentLogs := [], statusFile := none,
    logClients := [], statusClients := [], scriptOk := true, pendingRuns := [] }

/-- A concrete state with a live run (process registered, status file
showing a running record) used by witnesses and counterexamples. -/
def sampleRunning : ServerState :=
  { process := some { exitCode := none },
    recentLogs := [],
    statusFile := some
      { status := "running", captured := 0, total := 10, error := none,
        start_time := some "t0", recent_logs := [] },
    logClients := [], statusClients := [], scriptOk := true,
    pendingRuns := [] }

/-! Helper lemmas shared by several claims. -/

/-- dropWhile is the identity when no element satisfies the predicate. -/
theorem dropWhile_eq_self_of_forall {α : Type} (p : α → Bool) (l : List α)
    (h : ∀ c ∈ l, p c = false) : l.dropWhile p = l := by
  cases l with
  | nil => rfl
  | cons a t =>
    rw [List.dropWhile_cons, h a (List.mem_cons_self a t)]
    simp

/-- The ring-buffer step never leaves more than the capacity behind. -/
theorem appendRecent_length_le (logs : List String) (line : String) :
    (appendRecent logs line).length ≤ MAX_RECENT_LOGS := by
  simp only [appendRecent]
  by_cases h : MAX_RECENT_LOGS < (logs ++ [line]).length
  · rw [if_pos h, List.length_drop]
    omega
  · rw [if_neg h]
    omega

/-- At capacity, the ring-buffer step evicts exactly the oldest entry. -/
theorem appendRecent_at_capacity (logs : List String) (line : String)
    (h : logs.length = MAX_RECENT_LOGS) :
    appendRecent logs line = logs.drop 1 ++ [line] := by
  have hM : MAX_RECENT_LOGS = 200 := rfl
  have hlen : (logs ++ [line]).length = MAX_RECENT_LOGS + 1 := by
    simp [List.length_append, h]
  simp only [appendRecent]
  rw [if_pos (by rw [hlen]; omega), hlen]
  have h1 : MAX_RECENT_LOGS + 1 - MAX_RECENT_LOGS = 1 := by omega
  rw [h1, List.drop_append_of_le_length (by omega)]

/-- Any fold of ring-buffer appends stays within the capacity. -/
theorem foldl_appendRecent_le (lines : List String) :
    ∀ acc : List String, acc.length ≤ MAX_RECENT_LOGS →
      (List.foldl appendRecent acc lines).length ≤ MAX_RECENT_LOGS := by
  induction lines with
  | nil => intro acc h; simpa using h
  | cons a t ih =>
    intro acc h
    simp only [List.foldl_cons]
    exact ih _ (appendRecent_length_le acc a)

/-- C5: the log ring buffer never holds more than its capacity
C = MAX_RECENT_LOGS = 200 entries: any sequence of appends from the
empty buffer stays within the bound, a single append always lands
within the bound, appending to a buffer already holding exactly C
entries evicts exactly the oldest entry and leaves exactly C entries,
and the retained entries are a suffix of the appended sequence, hence
stay in chronological append order. -/
theorem c5_log_ring_buffer_bound (logs : List String) (line : String)
    (lines : List String) :
    (List.foldl appendRecent [] lines).length ≤ MAX_RECENT_LOGS ∧
    (appendRecent logs line).length ≤ MAX_RECENT_LOGS ∧
    (logs.length = MAX_RECENT_LOGS →
      appendRecent logs line = logs.drop 1 ++ [line] ∧
      (appendRecent logs line).length = MAX_RECENT_LOGS) ∧
    appendRecent logs line <:+ logs ++ [line] := by
  refine ⟨foldl_appendRecent_le lines [] (by simp),
          appendRecent_length_le logs line, ?_, ?_⟩
  · intro h
    refine ⟨appendRecent_at_capacity logs line h, ?_⟩
    rw [appendRecent_at_capacity logs line h]
    have hM : MAX_RECENT_LOGS = 200 := rfl
    simp only [List.length_append, List.length_drop, h, List.length_cons,
      List.length_nil]
    omega
  · simp only [appendRecent]
    by_cases h : MAX_RECENT_LOGS < (logs ++ [line]).length
    · rw [if_pos h]
      exact List.drop_suffix _ _
    · rw [if_neg h]

/-- Witness for C5 at a buffer holding exactly 200 entries. -/
theorem c5_log_ring_buffer_bound_witness :
    appendRecent (List.replicate 200 "x") "y" =
      (List.replicate 200 "x").drop 1 ++ ["y"] ∧
    (appendRecent (List.replicate 200 "x") "y").length = MAX_RECENT_LOGS :=
  (c5_log_ring_buffer_bound (List.replicate 200 "x") "y" []).2.2.1
    (by rw [List.length_replicate]; rfl)

/-- C8: when no process is active (no process global, or a process that
has already exited), `stop` returns NotRunning with HTTP 400 and the
entire server state — in particular the persisted RunStatus — is left
unchanged.  This holds for the supervised endpoint in src/timelapse.py
and for the minimal variant in src/app.py. -/
theorem c8_stop_not_running (σ : ServerState) (σa : AppState)
    (h : σ.process = none ∨ ∃ p, σ.process = some p ∧ p.exitCode ≠ none)
    (ha : σa.process = none ∨ ∃ p, σa.process = some p ∧ p.exitCode ≠ none) :
    stop_timelapse σ =
      ({ success := false, message := "No timelapse running", code := 400 }, σ) ∧
    app_stop_timelapse σa =
      ({ success := false, message := "No timelapse running", code := 400 }, σa) := by
  constructor
  · rcases h with h | ⟨p, hp, hcode⟩
    · simp [stop_timelapse, h]
    · rcases hc : p.exitCode with _ | n
      · exact absurd hc hcode
      · simp [stop_timelapse, hp, hc]
  · rcases ha with h | ⟨p, hp, hcode⟩
    · simp [app_stop_timelapse, h]
    · rcases hc : p.exitCode with _ | n
      · exact absurd hc hcode
      · simp [app_stop_timelapse, hp, hc]

/-- Witness for C8 on concrete idle states. -/
theorem c8_stop_not_running_witness :
    stop_timelapse sampleIdle =
      ({ success := false, message := "No timelapse running", code := 400 },
       sampleIdle) ∧
    app_stop_timelapse { process := none, spawned := [] } =
      ({ success := false, message := "No timelapse running", code := 400 },
       ({ process := none, spawned := [] } : AppState)) :=
  c8_stop_not_running sampleIdle { process := none, spawned := [] }
    (Or.inl rfl) (Or.inl rfl)

/-- C10: on a successful stop of an active process, the optimistic
status write persists exactly the record read immediately before the
write with only the `status` field changed to "idle"; `captured`,
`total`, `error`, `start_time` and the recent-log tail are untouched. -/
theorem c10_stop_optimistic_write (σ : ServerState) (p : Proc)
    (hp : σ.process = some p) (hrun : p.exitCode = none) :
    (stop_timelapse σ).1 =
      { success := true, message := "Stop signal sent", code := 200 } ∧
    (stop_timelapse σ).2.statusFile =
      some { read_status σ with status := "idle" } ∧
    (∃ rec, (stop_timelapse σ).2.statusFile = some rec ∧
      rec.status = "idle" ∧
      rec.captured = (read_status σ).captured ∧
      rec.total = (read_status σ).total ∧
      rec.error = (read_status σ).error ∧
      rec.recent_logs = (read_status σ).recent_logs ∧
      rec.start_time = (read_status σ).start_time) := by
  have h1 : stop_timelapse σ =
      ({ success := true, message := "Stop signal sent", code := 200 },
       write_status σ { read_status σ with status := "idle" }) := by
    simp [stop_timelapse, hp, hrun]
  rw [h1]
  exact ⟨rfl, rfl, ⟨_, rfl, rfl, rfl, rfl, rfl, rfl, rfl⟩⟩

/-- Witness for C10 on a concrete running state. -/
theorem c10_stop_optimistic_write_witness :
    (stop_timelapse sampleRunning).1 =
      { success := true, message := "Stop signal sent", code := 200 } ∧
    (stop_timelapse sampleRunning).2.statusFile =
      some { read_status sampleRunning with status := "idle" } ∧
    (∃ rec, (stop_timelapse sampleRunning).2.statusFile = some rec ∧
      rec.status = "idle" ∧
      rec.captured = (read_status sampleRunning).captured ∧
      rec.total = (read_status sampleRunning).total ∧
      rec.error = (read_status sampleRunning).error ∧
      rec.recent_logs = (read_status sampleRunning).recent_logs ∧
      rec.start_time = (read_status sampleRunning).start_time) :=
  c10_stop_optimistic_write sampleRunning { exitCode := none } rfl rfl

/-- C4 (amended part): in the supervised endpoint of src/timelapse.py,
whenever the interval/frames inputs do not both parse as integers at
least 1 (non-numeric values included), `start` returns HTTP 400 with
`success = false` and leaves the entire server state unchanged: the
log buffer is not cleared, no status record is written, and no runner
thread is spawned. -/
theorem c4_invalid_start_rejected (σ : ServerState) (interval frames : String)
    (h : ∀ i f : Int, pyInt interval = some i → pyInt frames = some f →
      i < 1 ∨ f < 1) :
    (start_timelapse σ interval frames).1.code = 400 ∧
    (start_timelapse σ interval frames).1.success = false ∧
    (start_timelapse σ interval frames).2 = σ := by
  unfold start_timelapse
  rcases hi : pyInt interval with _ | i
  · simp
  · rcases hf : pyInt frames with _ | f
    · simp
    · have hlt := h i f hi hf
      simp [if_pos hlt]

/-- Witness for C4's amended theorem at interval "0". -/
theorem c4_invalid_start_rejected_witness :
    (start_timelapse sampleIdle "0" "10").1.code = 400 ∧
    (start_timelapse sampleIdle "0" "10").1.success = false ∧
    (start_timelapse sampleIdle "0" "10").2 = sampleIdle :=
  c4_invalid_start_rejected sampleIdle "0" "10"
    (by
      intro i f hi hf
      have h0 : (0 : Int) = i :=
        Option.some.inj (show some (0 : Int) = some i from hi)
      omega)

/-- C4 counterexample: the `/start` endpoint of the src/app.py variant
performs no validation at all — called with interval "0" (below 1) it
returns success 200 and spawns the capture process with the raw
arguments, contradicting the claim that every start with
interval < 1 fails with HTTP 400 and spawns nothing. -/
theorem c4_counterexample :
    (app_start_timelapse { process := none, spawned := [] } "0" "10").1 =
      { success := true, message := "Timelapse started", code := 200 } ∧
    (app_start_timelapse { process := none, spawned := [] } "0" "10").2.spawned =
      [("0", "10")] :=
  ⟨rfl, rfl⟩

/-- C9: publishing an event delivers it to every currently registered
subscriber queue that can accept it, delivery is a total function of
the subscriber list (the publisher never blocks or raises: the source
wraps each `put_nowait` in try/except), each subscriber's outcome
depends only on its own queue (a failing queue drops the event for
that subscriber alone and is left unchanged), and every non-failing
subscriber receives the event appended to its queue.  Stated for both
`broadcast_log` and `broadcast_status`. -/
theorem c9_broadcast_delivery (σ : ServerState) (line : String)
    (rec : StatusRec) (i : Nat) :
    (broadcast_log σ line).logClients.length = σ.logClients.length ∧
    (broadcast_log σ line).logClients[i]? =
      (σ.logClients[i]?).map (fun q => putNowait q line) ∧
    (broadcast_status σ rec).statusClients.length = σ.statusClients.length ∧
    (broadcast_status σ rec).statusClients[i]? =
      (σ.statusClients[i]?).map (fun q => putNowait q rec) ∧
    (∀ q : Chan String, q.failing = false →
      putNowait q line = { items := q.items ++ [line], failing := false }) ∧
    (∀ q : Chan String, q.failing = true → putNowait q line = q) ∧
    (∀ q : Chan StatusRec, q.failing = false →
      putNowait q rec = { items := q.items ++ [rec], failing := false }) ∧
    (∀ q : Chan StatusRec, q.failing = true → putNowait q rec = q) := by
  refine ⟨by simp [broadcast_log, broadcastAll],
          by simp [broadcast_log, broadcastAll, List.getElem?_map],
          by simp [broadcast_status, broadcastAll],
          by simp [broadcast_status, broadcastAll, List.getElem?_map],
          ?_, ?_, ?_, ?_⟩ <;>
    intro q hq <;> simp [putNowait, hq]

/-- Witness for C9: a non-failing queue receives the event, a failing
queue is left untouched. -/
theorem c9_broadcast_delivery_witness :
    putNowait { items := [], failing := false } "a" =
      { items := ["a"], failing := false } ∧
    putNowait { items := ["b"], failing := true } "a" =
      { items := ["b"], failing := true } :=
  ⟨(c9_broadcast_delivery sampleIdle "a" defaultStatus 0).2.2.2.2.1 _ rfl,
   (c9_broadcast_delivery sampleIdle "a" defaultStatus 0).2.2.2.2.2.1 _ rfl⟩

/-- C1 (code bug): evaluated trace of the start/start race in
src/timelapse.py.  The first `start` on an idle state succeeds, but
when it returns the `process` global is still unset — the runner
thread it spawned registers the subprocess only later, in its own
critical section (`run_timelapse_register`).  A second `start` issued
at that point passes the `process is None` check under the run-lock
and succeeds as well, leaving two pending runner threads, instead of
failing with AlreadyRunning as the claim requires.  Once a run is
registered (last two conjuncts, state `sampleRunning`), the second
start is correctly rejected with 400 and the state is untouched. -/
theorem c1_double_start_race :
    (start_timelapse sampleIdle "5" "10").1.success = true ∧
    (start_timelapse sampleIdle "5" "10").2.process = none ∧
    (start_timelapse (start_timelapse sampleIdle "5" "10").2 "5" "10").1 =
      { success := true, message := "Timelapse started", code := 200 } ∧
    (start_timelapse (start_timelapse sampleIdle "5" "10").2 "5" "10").2.pendingRuns =
      [(5, 10), (5, 10)] ∧
    (run_timelapse_register (start_timelapse sampleIdle "5" "10").2).process =
      some { exitCode := none } ∧
    (start_timelapse sampleRunning "5" "10").1 =
      { success := false, message := "Timelapse already running", code := 400 } ∧
    (start_timelapse sampleRunning "5" "10").2 = sampleRunning :=
  ⟨rfl, rfl, rfl, rfl, rfl, rfl, rfl⟩

/-- The last observable file content of a `safe_write_json` call is the
complete new record, on both the atomic path and the fallback path. -/
theorem safe_write_states_getLast (old new : List Char) (b : Bool) :
    (safe_write_states old new b).getLast? = some new := by
  cases b
  · simp [safe_write_states]
  · have h1 : directWriteStates new =
        (List.range new.length).map (fun n => new.take n) ++ [new] := by
      unfold directWriteStates
      rw [List.range_succ, List.map_append]
      simp [List.take_length]
    simp only [safe_write_states, if_pos]
    rw [h1]
    exact List.getLast?_concat
      (old :: List.map (fun n => List.take n new) (List.range new.length))

/-- C7 (amended part): on the normal path (temp-file write succeeds,
`os.replace` swaps it in) every observable content of the status file
during `safe_write_json` is either the old or the complete new record
— no partially written record is ever observable — and on every path
the final content equals the written record, so a read after the
write returns it. -/
theorem c7_atomic_write (old new : List Char) (b : Bool) :
    (∀ s ∈ safe_write_states old new false, s = old ∨ s = new) ∧
    (safe_write_states old new b).getLast? = some new := by
  constructor
  · intro s hs
    simp only [safe_write_states, if_neg] at hs
    simpa using hs
  · exact safe_write_states_getLast old new b

/-- Witness for C7 on concrete contents. -/
theorem c7_atomic_write_witness :
    ((['X'] : List Char) = ['A'] ∨ (['X'] : List Char) = ['X']) ∧
    (safe_write_states ['A'] ['X'] true).getLast? = some ['X'] :=
  ⟨(c7_atomic_write ['A'] ['X'] false).1 ['X'] (by decide),
   (c7_atomic_write ['A'] ['X'] true).2⟩

/-- C7 counterexample: when the temp-file write raises, the except
branch of `safe_write_json` re-writes the target file directly, and an
intermediate observable content (the truncated file, or a strict
prefix of the record) is neither the old nor the new record — a
concurrent reader can observe a partially written record, contrary to
the claim that atomic-replace semantics hold even when the write path
encounters an error. -/
theorem c7_counterexample :
    ¬ (∀ s ∈ safe_write_states ['A'] ['B', 'C'] true,
        s = ['A'] ∨ s = ['B', 'C']) := by
  decide

/-- A digit character is not Python whitespace. -/
theorem isDigit_not_space (c : Char) (h : c.isDigit = true) :
    isPySpace c = false := by
  cases hb : isPySpace c
  · rfl
  · exfalso
    unfold isPySpace at hb
    simp only [Char.isWhitespace, Bool.or_eq_true, decide_eq_true_eq] at hb
    rcases hb with ((h1 | h1) | h1) | h1 <;> subst h1 <;>
      exact absurd h (by decide)

/-- A digit character is not a colon. -/
theorem isDigit_ne_colon (c : Char) (h : c.isDigit = true) : c ≠ ':' := by
  intro he
  subst he
  exact absurd h (by decide)

/-- A digit character is not a newline. -/
theorem isDigit_ne_newline (c : Char) (h : c.isDigit = true) : c ≠ '\n' := by
  intro he
  subst he
  exact absurd h (by decide)

/-- A digit character is not an underscore. -/
theorem isDigit_ne_underscore (c : Char) (h : c.isDigit = true) : c ≠ '_' := by
  intro he
  subst he
  exact absurd h (by decide)

/-- rstrip("\n") is the identity on a string not ending in a newline. -/
theorem rstripNl_eq_self (l : List Char) (h : l.getLast? ≠ some '\n') :
    rstripNl l = l := by
  unfold rstripNl
  cases hrev : l.reverse with
  | nil =>
    have hl : l = [] := List.reverse_eq_nil_iff.mp hrev
    subst hl
    rfl
  | cons c t =>
    have hc : l.getLast? = some c := by
      rw [← List.head?_reverse, hrev]
      rfl
    have hcne : c ≠ '\n' := by
      intro he
      exact h (by rw [hc, he])
    have hcn : (c == '\n') = false := beq_eq_false_iff_ne.mpr hcne
    have hd : List.dropWhile (fun x => x == '\n') (c :: t) = c :: t := by
      rw [List.dropWhile_cons]
      simp [hcn]
    rw [hd, ← hrev, List.reverse_reverse]

/-- strip() is the identity on a nonempty all-digit string. -/
theorem stripL_digits (ds : List Char) (h : ∀ c ∈ ds, c.isDigit = true) :
    stripL ds = ds := by
  unfold stripL
  rw [dropWhile_eq_self_of_forall isPySpace ds
    (fun c hc => isDigit_not_space c (h c hc))]
  rw [dropWhile_eq_self_of_forall isPySpace ds.reverse
    (fun c hc => isDigit_not_space c (h c (List.mem_reverse.mp hc)))]
  exact List.reverse_reverse ds

/-- One digit-scanning step on a digit character. -/
theorem pyIntTail_cons_digit (acc : Nat) (c : Char) (rest : List Char)
    (h : c.isDigit = true) :
    pyIntTail acc (c :: rest) = pyIntTail (10 * acc + (c.toNat - 48)) rest := by
  have hne : c ≠ '_' := isDigit_ne_underscore c h
  cases rest with
  | nil => rw [pyIntTail.eq_2, if_neg hne, if_pos h]
  | cons d t => rw [pyIntTail.eq_3, if_neg hne, if_pos h]

/-- Digit scanning with accumulator on an all-digit string. -/
theorem pyIntTail_digits (ds : List Char) :
    ∀ acc : Nat, (∀ c ∈ ds, c.isDigit = true) →
      pyIntTail acc ds =
        some (ds.foldl (fun a c => 10 * a + (c.toNat - 48)) acc) := by
  induction ds with
  | nil => intro acc h; rfl
  | cons c rest ih =>
    intro acc h
    have hc : c.isDigit = true := h c (List.mem_cons_self c rest)
    rw [pyIntTail_cons_digit acc c rest hc,
      ih _ (fun d hd => h d (List.mem_cons_of_mem c hd))]
    simp [List.foldl_cons]

/-- Python int() digit core on a nonempty all-digit string. -/
theorem pyIntCore_digits (ds : List Char) (hne : ds ≠ [])
    (h : ∀ c ∈ ds, c.isDigit = true) : pyIntCore ds = some (digitsVal ds) := by
  cases ds with
  | nil => exact absurd rfl hne
  | cons c rest =>
    have hc : c.isDigit = true := h c (List.mem_cons_self c rest)
    simp only [pyIntCore]
    rw [if_pos hc, pyIntTail_digits rest _
      (fun d hd => h d (List.mem_cons_of_mem c hd))]
    simp [digitsVal, List.foldl_cons]

/-- Python int() on a nonempty all-digit string returns its value. -/
theorem pyIntL_digits (ds : List Char) (hne : ds ≠ [])
    (h : ∀ c ∈ ds, c.isDigit = true) :
    pyIntL ds = some (Int.ofNat (digitsVal ds)) := by
  cases ds with
  | nil => exact absurd rfl hne
  | cons c rest =>
    have hc : c.isDigit = true := h c (List.mem_cons_self c rest)
    have h1 : c ≠ '+' := by
      intro e; subst e; exact absurd hc (by decide)
    have h2 : c ≠ '-' := by
      intro e; subst e; exact absurd hc (by decide)
    have hs : stripL (c :: rest) = c :: rest := stripL_digits _ h
    simp only [pyIntL, hs]
    rw [if_neg h1, if_neg h2,
      pyIntCore_digits (c :: rest) (by simp) h]
    rfl

/-- split(":") returns the whole string when it holds no colon. -/
theorem splitC_no_colon (l : List Char) (h : ∀ c ∈ l, c ≠ ':') :
    splitC l = [l] := by
  induction l with
  | nil => rfl
  | cons c rest ih =>
    have hc : c ≠ ':' := h c (List.mem_cons_self c rest)
    simp only [splitC]
    rw [if_neg hc, ih (fun d hd => h d (List.mem_cons_of_mem c hd))]

/-- split(":") over a colon-free prefix prepends the prefix to the first
field. -/
theorem splitC_append_no_colon (l₁ l₂ r : List Char) (rs : List (List Char))
    (h : ∀ c ∈ l₁, c ≠ ':') (h2 : splitC l₂ = r :: rs) :
    splitC (l₁ ++ l₂) = (l₁ ++ r) :: rs := by
  induction l₁ with
  | nil => simpa using h2
  | cons c t ih =>
    have hc : c ≠ ':' := h c (List.mem_cons_self c t)
    have ih2 := ih (fun d hd => h d (List.mem_cons_of_mem c hd))
    simp only [List.cons_append, splitC]
    rw [if_neg hc]
    simp only [List.append_eq]
    rw [ih2]

/-- strip() removes the single leading space of " " followed by digits. -/
theorem stripL_space_digits (ds : List Char) (h : ∀ c ∈ ds, c.isDigit = true) :
    stripL (' ' :: ds) = ds := by
  unfold stripL
  rw [List.dropWhile_cons]
  have hsp : isPySpace ' ' = true := by decide
  simp only [hsp, if_true]
  rw [dropWhile_eq_self_of_forall isPySpace ds
    (fun c hc => isDigit_not_space c (h c hc))]
  rw [dropWhile_eq_self_of_forall isPySpace ds.reverse
    (fun c hc => isDigit_not_space c (h c (List.mem_reverse.mp hc)))]
  exact List.reverse_reverse ds

/-- The reader loop's progress parse accepts the canonical line
"captured: " followed by any nonempty digit string and returns the
digits' value. -/
theorem parseProgress_capline (ds : List Char) (hne : ds ≠ [])
    (h : ∀ c ∈ ds, c.isDigit = true) :
    parseProgressL ("captured: ".toList ++ ds) =
      some (Int.ofNat (digitsVal ds)) := by
  have hns : splitC (' ' :: ds) = [' ' :: ds] := by
    apply splitC_no_colon
    intro c hc
    rcases List.mem_cons.mp hc with h1 | h1
    · subst h1; decide
    · exact isDigit_ne_colon c (h c h1)
  have e0 : splitC (':' :: ' ' :: ds) = [] :: [' ' :: ds] := by
    rw [← hns]
    rfl
  have hsplit : splitC ("captured: ".toList ++ ds) =
      ["captured".toList, ' ' :: ds] := by
    show splitC ("captured".toList ++ (':' :: ' ' :: ds)) = _
    rw [splitC_append_no_colon "captured".toList (':' :: ' ' :: ds) [] [' ' :: ds]
      (by decide) e0]
    rfl
  have hcond : (containsSeq capturedKey ("captured: ".toList ++ ds) &&
      containsSeq [':'] ("captured: ".toList ++ ds)) = true := rfl
  simp only [parseProgressL, hcond, if_true, hsplit]
  rw [show toLowerL (stripL "captured".toList) = capturedKey from rfl]
  rw [stripL_space_digits ds h, pyIntL_digits ds hne h]
  simp

/-- C2 counterexample: the line "Captured: 7" matches the claim's
case-insensitive pattern "captured: <integer>", but the reader loop's
guard `"captured" in line` is a case-sensitive substring test, so the
parse is never attempted: the persisted record keeps its previous
`status`/`captured` fields (here "running"/0, not 7) and no status
broadcast happens. -/
theorem c2_counterexample :
    parseProgressL "Captured: 7".toList = none ∧
    (run_timelapse_handle_line "t" 10 sampleRunning "Captured: 7").statusFile.map
      (fun r => (r.status, r.captured)) = some ("running", 0) ∧
    (run_timelapse_handle_line "t" 10 sampleRunning "Captured: 7").statusClients =
      sampleRunning.statusClients :=
  ⟨rfl, rfl, rfl⟩

set_option maxRecDepth 8192 in
/-- C2 (amended): a progress line with the lowercase key — "captured: "
followed by any nonempty digit string — makes the reader loop update
the persisted record to status "running", captured = the parsed
integer, total = the requested frame count, error cleared, and
broadcast that record to every status subscriber; while the malformed
line "captured: abc" leaves the RunStatus fields (status, captured,
total, error) of the persisted record unchanged and broadcasts no
status, the iteration completing normally (parsing failures never
abort the reader loop: the parse is a total function whose failure
case returns the state produced by the log-append path). -/
theorem c2_progress_parsing (σ : ServerState) (now : String) (frames : Int)
    (ds : List Char) (hne : ds ≠ []) (h : ∀ c ∈ ds, c.isDigit = true) :
    (∃ rec,
      (run_timelapse_handle_line now frames σ
        (String.mk ("captured: ".toList ++ ds))).statusFile = some rec ∧
      rec.status = "running" ∧
      rec.captured = Int.ofNat (digitsVal ds) ∧
      rec.total = frames ∧
      rec.error = none ∧
      (run_timelapse_handle_line now frames σ
        (String.mk ("captured: ".toList ++ ds))).statusClients =
        broadcastAll σ.statusClients rec) ∧
    ((read_status (run_timelapse_handle_line now frames σ "captured: abc")).status =
        (read_status σ).status ∧
      (read_status (run_timelapse_handle_line now frames σ "captured: abc")).captured =
        (read_status σ).captured ∧
      (read_status (run_timelapse_handle_line now frames σ "captured: abc")).total =
        (read_status σ).total ∧
      (read_status (run_timelapse_handle_line now frames σ "captured: abc")).error =
        (read_status σ).error ∧
      (run_timelapse_handle_line now frames σ "captured: abc").statusClients =
        σ.statusClients) := by
  constructor
  · have hlist : (String.mk ("captured: ".toList ++ ds)).toList =
        "captured: ".toList ++ ds := rfl
    have hlast : ("captured: ".toList ++ ds).getLast? = ds.getLast? :=
      List.getLast?_append_of_ne_nil _ hne
    have hgl := List.getLast?_eq_getLast_of_ne_nil hne
    have hmem : ds.getLast hne ∈ ds := List.getLast_mem hne
    have hnl : ("captured: ".toList ++ ds).getLast? ≠ some '\n' := by
      rw [hlast, hgl]
      intro he
      exact isDigit_ne_newline _ (h _ hmem) (Option.some.inj he)
    have hstrip : rstripNl ("captured: ".toList ++ ds) =
        "captured: ".toList ++ ds := rstripNl_eq_self _ hnl
    have hcs : ("captured: ".toList ++ ds) ≠ [] := by simp
    simp only [run_timelapse_handle_line, hlist, hstrip]
    rw [if_neg hcs, parseProgress_capline ds hne h]
    exact ⟨_, rfl, rfl, rfl, rfl, rfl, rfl⟩
  · exact ⟨rfl, rfl, rfl, rfl, rfl⟩

/-- Witness for C2's amended theorem at the line "captured: 7". -/
theorem c2_progress_parsing_witness :
    ∃ rec, (run_timelapse_handle_line "t" 10 sampleRunning
        (String.mk ("captured: ".toList ++ ['7']))).statusFile = some rec ∧
      rec.status = "running" ∧ rec.captured = Int.ofNat (digitsVal ['7']) ∧
      rec.total = 10 ∧ rec.error = none := by
  obtain ⟨rec, h1, h2, h3, h4, h5, h6⟩ :=
    (c2_progress_parsing sampleRunning "t" 10 ['7'] (by decide) (by decide)).1
  exact ⟨rec, h1, h2, h3, h4, h5⟩

/-- C3 (amended): when the process exits, the finalized record has
status "done" on exit code 0 and status "error" with the message
"timelapse script exited with code <N>" on nonzero N (the source's
message text, not the claim's "process exited with code <N>");
`total` is set to the requested frame count, `captured` is kept, the
final record is persisted, and the active-process reference is
cleared so a new start may proceed. -/
theorem c3_exit_finalization (σ : ServerState) (frames ret : Int) :
    (run_timelapse_finalize frames ret σ).process = none ∧
    ∃ rec, (run_timelapse_finalize frames ret σ).statusFile = some rec ∧
      rec.total = frames ∧
      rec.captured = (read_status σ).captured ∧
      (ret = 0 → rec.status = "done" ∧ rec.error = (read_status σ).error) ∧
      (ret ≠ 0 → rec.status = "error" ∧
        rec.error = some ("timelapse script exited with code " ++ toString ret)) := by
  refine ⟨rfl, _, rfl, rfl, rfl, ?_, ?_⟩
  · intro h0
    exact ⟨if_pos h0, if_pos h0⟩
  · intro h0
    exact ⟨if_neg h0, if_neg h0⟩

/-- Witness for C3 at exit code 2. -/
theorem c3_exit_finalization_witness :
    (run_timelapse_finalize 3 2 sampleRunning).process = none ∧
    ∃ rec, (run_timelapse_finalize 3 2 sampleRunning).statusFile = some rec ∧
      rec.status = "error" ∧
      rec.error = some "timelapse script exited with code 2" := by
  obtain ⟨h1, rec, h2, h3, h4, h5, h6⟩ := c3_exit_finalization sampleRunning 3 2
  obtain ⟨h7, h8⟩ := h6 (by decide)
  refine ⟨h1, rec, h2, h7, ?_⟩
  rw [h8]
  decide

/-- C3 counterexample: at exit code 2 the persisted error message is
exactly "timelapse script exited with code 2", not the claim's
"process exited with code 2". -/
theorem c3_counterexample :
    (run_timelapse_finalize 3 2 sampleRunning).statusFile.map StatusRec.error =
      some (some "timelapse script exited with code 2") ∧
    (run_timelapse_finalize 3 2 sampleRunning).statusFile.map StatusRec.error ≠
      some (some "process exited with code 2") := by
  refine ⟨rfl, ?_⟩
  decide

/-- C6 (amended): every progress-line update writes
captured = the reported value and total = the requested frame count,
so the invariant captured ≤ total is preserved exactly when the
process reports a value not exceeding the requested frame count (the
code applies no clamping). -/
theorem c6_captured_le_total (σ : ServerState) (now : String) (frames : Int)
    (line : String) (v : Int)
    (hparse : parseProgressL (rstripNl line.toList) = some v)
    (hle : v ≤ frames) :
    ∃ rec, (run_timelapse_handle_line now frames σ line).statusFile = some rec ∧
      rec.captured = v ∧ rec.total = frames ∧ rec.captured ≤ rec.total := by
  have hcs : rstripNl line.toList ≠ [] := by
    intro he
    rw [he] at hparse
    exact Option.noConfusion (show (none : Option Int) = some v from hparse)
  simp only [run_timelapse_handle_line]
  rw [if_neg hcs, hparse]
  exact ⟨_, rfl, rfl, rfl, hle⟩

/-- Witness for C6 at "captured: 7" with 10 requested frames. -/
theorem c6_captured_le_total_witness :
    ∃ rec, (run_timelapse_handle_line "t" 10 sampleRunning "captured: 7").statusFile =
        some rec ∧
      rec.captured = 7 ∧ rec.total = 10 ∧ rec.captured ≤ rec.total :=
  c6_captured_le_total sampleRunning "t" 10 "captured: 7" 7 (by decide) (by decide)

/-- C6 counterexample: with 10 requested frames, the progress line
"captured: 15" is written verbatim: the persisted record gets
captured = 15 and total = 10, violating captured ≤ total — the update
does not preserve the invariant for every reported integer. -/
theorem c6_counterexample :
    (run_timelapse_handle_line "t" 10 sampleRunning "captured: 15").statusFile.map
      (fun r => (r.captured, r.total)) = some (15, 10) ∧
    ¬ ((15 : Int) ≤ 10) :=
  ⟨rfl, by decide⟩
